import Mathlib

/-!
Verification of a small calendar web application: a browser-rendered month
grid (script.js) and an Express/MongoDB backend exposing list/create/delete
of events.  The definitions below are shallow embeddings of the source
functions; theorems settle the specification claims about them.
-/

/-! ## Calendar date arithmetic (model of the JS Date semantics used in
`renderCalendar`, script.js lines 137-139)

JavaScript Date implements the proleptic Gregorian calendar.  We model
years as natural numbers (all uses in the repository are contemporary
years), months 0-based as in the source. -/

/-- Gregorian leap-year rule, as implemented by the JS Date object. -/
def isLeap (y : Nat) : Bool :=
  (y % 4 == 0 && y % 100 != 0) || y % 400 == 0

/-- Number of days in month `m` (0-based: 0 = January) of year `y`.
Models `new Date(year, month + 1, 0).getDate()` (script.js line 138). -/
def daysInMonth (y m : Nat) : Nat :=
  if m == 1 then (if isLeap y then 29 else 28)
  else if m == 3 || m == 5 || m == 8 || m == 10 then 30
  else 31

/-- Days in year `y` strictly before month `m` (0-based). -/
def daysBeforeMonth (y m : Nat) : Nat :=
  (List.range m).foldl (fun acc i => acc + daysInMonth y i) 0

/-- Days from 0001-01-01 to the first of January of year `y`
(proleptic Gregorian). -/
def daysBeforeYear (y : Nat) : Nat :=
  365 * (y - 1) + (y - 1) / 4 - (y - 1) / 100 + (y - 1) / 400

/-- Weekday index (0 = Sunday) of the first day of month `m` of year `y`.
Models `new Date(year, month, 1).getDay()` (script.js line 137); the
offset 1 accounts for 0001-01-01 being a Monday. -/
def dayOfWeekFirst (y m : Nat) : Nat :=
  (daysBeforeYear y + daysBeforeMonth y m + 1) % 7

/-- The Date Grid Calculator of `renderCalendar` (script.js lines 137-164):
`leadingCount` inactive cells from the previous month, the active days of
the month, and `nextMonthDaysNeeded = (42 - totalCells) % 7` trailing
inactive cells. -/
def dateGrid (y m : Nat) : Nat × Nat × Nat :=
  let firstDayOfMonth := dayOfWeekFirst y m
  let days := daysInMonth y m
  let totalCells := firstDayOfMonth + days
  (firstDayOfMonth, days, (42 - totalCells) % 7)

/-! ## Events and the event index (script.js) -/

/-- A frontend event record (script.js lines 9-16 and 212-217). -/
structure Event where
  title : String
  date : String
  time : String
  duration : String
deriving Repr, DecidableEq

/-- The static event data acting as the loaded JSON file
(script.js lines 9-16). -/
def staticEvents : List Event :=
  [ { title := "Project Kickoff", date := "2025-11-25", time := "10:00", duration := "1h" },
    { title := "Team Review", date := "2025-11-25", time := "11:00", duration := "30m" },
    { title := "Client Presentation", date := "2025-11-25", time := "14:00", duration := "2h" },
    { title := "Quarterly Planning", date := "2025-12-05", time := "09:30", duration := "2h" },
    { title := "Holiday Party", date := "2025-12-24", time := "18:00", duration := "4h" },
    { title := "Bug Bash", date := "2025-11-01", time := "09:00", duration := "3h" } ]

/-- The per-day event lookup used while rendering:
`staticEvents.filter(e => e.date === dateString)` (script.js line 151). -/
def eventsOn (evts : List Event) (dateString : String) : List Event :=
  evts.filter (fun e => e.date == dateString)

/-- `hasConflict` returns the number of events on the day
(script.js lines 56-58). -/
def hasConflict (dayEvents : List Event) : Nat :=
  dayEvents.length

/-- The CSS class attached to each event div as a function of the day event
count (script.js lines 104-110): count 2 gives level 2, count at least 3
gives level 3, otherwise no conflict class. -/
def conflictClass (count : Nat) : Option String :=
  if count == 2 then some "conflict-level-2"
  else if count ≥ 3 then some "conflict-level-3"
  else none

/-- The event divs of an active date cell with their conflict flag:
`createDateCell` computes `conflictCount = hasConflict(events)` once and
attaches the same conflict class to every event of the day
(script.js lines 96-117). -/
def cellEventFlags (events : List Event) : List (Event × Option String) :=
  events.map (fun e => (e, conflictClass (hasConflict events)))

/-! ## Add-event form (script.js lines 207-228) -/

/-- The values of the four form inputs read by the submit handler. -/
structure FormState where
  title : String
  date : String
  time : String
  duration : String
deriving Repr, DecidableEq

/-- The empty form produced by `addEventForm.reset()`. -/
def emptyForm : FormState :=
  { title := "", date := "", time := "", duration := "" }

/-- The frontend state touched by the submit handler: the mutable
`staticEvents` array, the form inputs, and the modal visibility. -/
structure UIState where
  events : List Event
  form : FormState
  modalVisible : Bool
deriving Repr, DecidableEq

/-- The body of the submit listener (script.js lines 208-228): gather the
form values into a new event, push it onto the event array, reset the form
and hide the modal. -/
def submitHandler (s : UIState) : UIState :=
  { events := s.events ++
      [{ title := s.form.title, date := s.form.date,
         time := s.form.time, duration := s.form.duration }],
    form := emptyForm,
    modalVisible := false }

/-- Modelled from the spec: the add-event form markup (the HTML file is not
part of the provided sources) marks the date and title inputs as required,
so the browser fires the submit event, and hence runs the handler, only
when both are non-empty. -/
def formSubmitAllowed (f : FormState) : Bool :=
  f.date != "" && f.title != ""

/-- A submission attempt: the handler runs only when the required-field
gate lets the submit event fire; otherwise nothing changes. -/
def submitForm (s : UIState) : UIState :=
  if formSubmitAllowed s.form then submitHandler s else s

/-! ## Month navigation (script.js lines 174-190) -/

/-- The calendar view state: `currentYear` and `currentMonth`
(script.js lines 31-32). -/
structure CalendarView where
  year : Int
  month : Int
deriving Repr, DecidableEq

/-- The prev-month click handler (script.js lines 174-181):
`currentMonth--`, wrapping below 0 to month 11 of the previous year. -/
def prevMonth (s : CalendarView) : CalendarView :=
  let m := s.month - 1
  if m < 0 then { year := s.year - 1, month := 11 }
  else { year := s.year, month := m }

/-- The next-month click handler (script.js lines 183-190):
`currentMonth++`, wrapping above 11 to month 0 of the next year. -/
def nextMonth (s : CalendarView) : CalendarView :=
  let m := s.month + 1
  if m > 11 then { year := s.year + 1, month := 0 }
  else { year := s.year, month := m }

/-- States reachable from `init` by any sequence of prev/next clicks. -/
inductive ReachableView (init : CalendarView) : CalendarView → Prop
  | refl : ReachableView init init
  | prev {s : CalendarView} : ReachableView init s → ReachableView init (prevMonth s)
  | next {s : CalendarView} : ReachableView init s → ReachableView init (nextMonth s)

/-- The month-range invariant of the view state. -/
def monthInRange (s : CalendarView) : Prop :=
  0 ≤ s.month ∧ s.month ≤ 11

/-! ## Backend REST handlers (Express + MongoDB server source) -/

/-- A persisted event document, following the schema of the server source:
an assigned identifier, date, title, description and creation timestamp.
The id models the MongoDB ObjectId as its 24-character hex string;
`createdAt` models the `new Date()` timestamp as a number. -/
structure StoredEvent where
  oid : String
  date : String
  title : String
  description : String
  createdAt : Nat
deriving Repr, DecidableEq

/-- The JSON body of a handler response. -/
inductive Body where
  | event (e : StoredEvent)
  | events (es : List StoredEvent)
  | errorMsg (msg : String)
  | message (msg : String)
deriving Repr, DecidableEq

/-- JS falsiness of an optional string field: absent (undefined) and the
empty string are falsy, every other string is truthy. -/
def falsy : Option String → Bool
  | none => true
  | some s => s == ""

/-- Ascending order on documents by their date string, as produced by
`.sort({ date: 1 })`. -/
def dateLE (a b : StoredEvent) : Prop := a.date ≤ b.date

instance : DecidableRel dateLE := fun a b =>
  inferInstanceAs (Decidable (a.date ≤ b.date))

instance : IsTotal StoredEvent dateLE := ⟨fun a b => le_total a.date b.date⟩

instance : IsTrans StoredEvent dateLE := ⟨fun _ _ _ hab hbc => le_trans hab hbc⟩

/-- The cursor sort `.find(query).sort({ date: 1 })`: the matched documents
in ascending date order. -/
def sortByDate (l : List StoredEvent) : List StoredEvent :=
  List.insertionSort dateLE l

/-- GET /events handler (server source): destructure the optional `date`
query parameter, build `query = date ? { date } : {}`, find the matching
documents sorted ascending by date, and answer 200 with the array. -/
def listEvents (store : List StoredEvent) (dateParam : Option String) : Nat × Body :=
  let matched :=
    if falsy dateParam then store
    else store.filter (fun e => e.date == dateParam.getD "")
  (200, Body.events (sortByDate matched))

/-- POST /events handler (server source): reject with 400 when `date` or
`title` is falsy, otherwise insert the document (with `description`
defaulted to the empty string and a fresh `createdAt`) and answer 201 with
the inserted document including its assigned id. -/
def createEvent (store : List StoredEvent) (date title description : Option String)
    (newId : String) (now : Nat) : Nat × Body × List StoredEvent :=
  if falsy date || falsy title then
    (400, Body.errorMsg "date and title are required", store)
  else
    let doc : StoredEvent :=
      { oid := newId, date := date.getD "", title := title.getD "",
        description := description.getD "", createdAt := now }
    (201, Body.event doc, store ++ [doc])

/-- A well-formed ObjectId string: 24 hexadecimal characters.  The
`new ObjectId(id)` constructor throws on anything else, which the
handler's try/catch turns into a 500 response. -/
def isValidObjectId (s : String) : Bool :=
  s.length == 24 && s.toList.all (fun c =>
    c.isDigit || (Char.ofNat 97 ≤ c && c ≤ Char.ofNat 102) ||
      (Char.ofNat 65 ≤ c && c ≤ Char.ofNat 70))

/-- `deleteOne({ _id })`: remove the first document with the given id,
if any. -/
def removeFirst (store : List StoredEvent) (id : String) : List StoredEvent :=
  match store with
  | [] => []
  | e :: rest => if e.oid == id then rest else e :: removeFirst rest id

/-- DELETE /events/:id handler (server source): construct the ObjectId
(throwing, hence 500, on a malformed id), delete the matching document,
answer 404 when `deletedCount` is 0 and 200 with a confirmation message
otherwise. -/
def deleteEvent (store : List StoredEvent) (id : String) : Nat × Body × List StoredEvent :=
  if !isValidObjectId id then
    (500, Body.errorMsg "Failed to delete event", store)
  else if store.any (fun e => e.oid == id) then
    (200, Body.message "Event deleted", removeFirst store id)
  else
    (404, Body.errorMsg "Event not found", store)

/-! ## Helper lemmas -/

theorem daysInMonth_le (y m : Nat) : daysInMonth y m ≤ 31 := by
  unfold daysInMonth
  split_ifs <;> norm_num

theorem dayOfWeekFirst_lt (y m : Nat) : dayOfWeekFirst y m < 7 :=
  Nat.mod_lt _ (by norm_num)

theorem falsy_iff (o : Option String) : falsy o = true ↔ o = none ∨ o = some "" := by
  cases o <;> simp [falsy]

theorem removeFirst_length (store : List StoredEvent) (id : String)
    (h : ∃ e ∈ store, e.oid = id) :
    (removeFirst store id).length + 1 = store.length := by
  induction store with
  | nil => simp at h
  | cons e rest ih =>
    by_cases he : e.oid = id
    · simp [removeFirst, he]
    · obtain ⟨x, hx, hxid⟩ := h
      rcases List.mem_cons.mp hx with hx | hx
      · exact absurd (hx ▸ hxid) he
      · have : (e.oid == id) = false := by simp [he]
        simp only [removeFirst, this, Bool.false_eq_true, if_false, List.length_cons]
        rw [ih ⟨x, hx, hxid⟩]

/-! ## Claim theorems -/

/-- C1: for every year and every month in 0..11, the grid counts of
`renderCalendar` satisfy: leadingCount + daysInMonth + trailingCount is a
multiple of 7, and trailingCount < 7. -/
theorem grid_counts_c1 (y m : Nat) (_hm : m ≤ 11) :
    ((dateGrid y m).1 + (dateGrid y m).2.1 + (dateGrid y m).2.2) % 7 = 0 ∧
      (dateGrid y m).2.2 < 7 := by
  have hl := dayOfWeekFirst_lt y m
  have hd := daysInMonth_le y m
  unfold dateGrid
  dsimp only
  omega

theorem grid_counts_c1_witness :
    ((dateGrid 2025 10).1 + (dateGrid 2025 10).2.1 + (dateGrid 2025 10).2.2) % 7 = 0 ∧
      (dateGrid 2025 10).2.2 < 7 :=
  grid_counts_c1 2025 10 (by norm_num)

/-- C2: the Date Grid Calculator returns the weekday index of the first of
the month as leadingCount, the number of days of the month, and
trailingCount = (42 - (leadingCount + daysInMonth)) mod 7; for year 2025,
month 10 (November 2025) it returns (6, 30, 6). -/
theorem date_grid_calculator_c2 :
    (∀ y m : Nat, m ≤ 11 →
      dateGrid y m = (dayOfWeekFirst y m, daysInMonth y m,
        (42 - (dayOfWeekFirst y m + daysInMonth y m)) % 7)) ∧
    dateGrid 2025 10 = (6, 30, 6) := by
  refine ⟨fun y m _ => rfl, ?_⟩
  decide

theorem date_grid_calculator_c2_witness :
    dateGrid 2026 1 = (dayOfWeekFirst 2026 1, daysInMonth 2026 1,
      (42 - (dayOfWeekFirst 2026 1 + daysInMonth 2026 1)) % 7) :=
  date_grid_calculator_c2.1 2026 1 (by norm_num)

/-- C3: the conflict flag is a function of the day event count only: count
0 or 1 attaches no flag, count exactly 2 attaches the level-2 flag to every
event of the day, count at least 3 the level-3 flag; the three sample
events on 2025-11-25 are all flagged level 3. -/
theorem conflict_classifier_c3 :
    conflictClass 0 = none ∧ conflictClass 1 = none ∧
    conflictClass 2 = some "conflict-level-2" ∧
    (∀ n : Nat, conflictClass (n + 3) = some "conflict-level-3") ∧
    (∀ evts : List Event, cellEventFlags evts =
      evts.map (fun e => (e, conflictClass (hasConflict evts)))) ∧
    hasConflict (eventsOn staticEvents "2025-11-25") = 3 ∧
    cellEventFlags (eventsOn staticEvents "2025-11-25") =
      (eventsOn staticEvents "2025-11-25").map (fun e => (e, some "conflict-level-3")) := by
  refine ⟨by decide, by decide, by decide, ?_, fun _ => rfl, by decide, by decide⟩
  intro n
  unfold conflictClass
  have h2 : ((n + 3 == 2) = true) = False := by simp
  have h3 : n + 3 ≥ 3 := by omega
  simp [h2, h3]

/-- C4: submitting the add-event form with an empty date or an empty title
leaves the whole UI state unchanged: the form is not cleared, the modal is
not dismissed, and no event reaches the event array; conversely the event
array changes only when date and title are both non-empty. -/
theorem form_submit_c4 (s : UIState) :
    ((s.form.date = "" ∨ s.form.title = "") → submitForm s = s) ∧
    ((submitForm s).events ≠ s.events →
      s.form.date ≠ "" ∧ s.form.title ≠ "") := by
  constructor
  · intro h
    unfold submitForm formSubmitAllowed
    rcases h with h | h <;> simp [h]
  · intro hne
    by_contra hc
    rw [not_and_or, not_ne_iff, not_ne_iff] at hc
    have : submitForm s = s := by
      unfold submitForm formSubmitAllowed
      rcases hc with h | h <;> simp [h]
    rw [this] at hne
    exact hne rfl

theorem form_submit_c4_witness :
    submitForm
        { events := staticEvents,
          form := { title := "X", date := "", time := "", duration := "" },
          modalVisible := true } =
      { events := staticEvents,
        form := { title := "X", date := "", time := "", duration := "" },
        modalVisible := true } ∧
    (("2025-12-01" : String) ≠ "" ∧ ("Standup" : String) ≠ "") :=
  ⟨(form_submit_c4 _).1 (Or.inl rfl),
   (form_submit_c4
      { events := [],
        form := { title := "Standup", date := "2025-12-01", time := "", duration := "" },
        modalVisible := true }).2 (by decide)⟩

/-- C5: the POST /events handler answers 400 with the validation error
message, leaving the store unchanged, exactly when date or title is absent
or empty; otherwise it appends the new document and answers 201 with the
persisted document carrying the assigned id and creation timestamp. -/
theorem create_event_c5 (store : List StoredEvent)
    (date title description : Option String) (newId : String) (now : Nat) :
    ((date = none ∨ date = some "" ∨ title = none ∨ title = some "") →
      createEvent store date title description newId now =
        (400, Body.errorMsg "date and title are required", store)) ∧
    ((date ≠ none ∧ date ≠ some "" ∧ title ≠ none ∧ title ≠ some "") →
      createEvent store date title description newId now =
        (201,
          Body.event
            { oid := newId, date := date.getD "", title := title.getD "",
              description := description.getD "", createdAt := now },
          store ++
            [{ oid := newId, date := date.getD "", title := title.getD "",
               description := description.getD "", createdAt := now }])) := by
  constructor
  · intro h
    have hor : falsy date = true ∨ falsy title = true := by
      rcases h with h | h | h | h
      · exact Or.inl ((falsy_iff date).mpr (Or.inl h))
      · exact Or.inl ((falsy_iff date).mpr (Or.inr h))
      · exact Or.inr ((falsy_iff title).mpr (Or.inl h))
      · exact Or.inr ((falsy_iff title).mpr (Or.inr h))
    unfold createEvent
    rcases hor with h | h <;> simp [h]
  · intro ⟨h1, h2, h3, h4⟩
    have hd : falsy date = false := by
      rw [← Bool.not_eq_true, falsy_iff]
      tauto
    have ht : falsy title = false := by
      rw [← Bool.not_eq_true, falsy_iff]
      tauto
    unfold createEvent
    simp [hd, ht]

theorem create_event_c5_witness :
    createEvent [] none (some "Standup") none "65a000000000000000000001" 42 =
      (400, Body.errorMsg "date and title are required", []) ∧
    createEvent [] (some "2025-12-01") (some "Standup") none "65a000000000000000000001" 42 =
      (201,
        Body.event
          { oid := "65a000000000000000000001", date := "2025-12-01",
            title := "Standup", description := "", createdAt := 42 },
        [{ oid := "65a000000000000000000001", date := "2025-12-01",
           title := "Standup", description := "", createdAt := 42 }]) :=
  ⟨(create_event_c5 [] none (some "Standup") none "65a000000000000000000001" 42).1
      (Or.inl rfl),
   (create_event_c5 [] (some "2025-12-01") (some "Standup") none
      "65a000000000000000000001" 42).2 (by simp)⟩

/-- C6 counterexample: the identifier "abc" does not resolve to any
existing record (the store is empty), yet the DELETE handler answers 500
(the ObjectId constructor throws on the malformed id and the catch block
takes over), not 404 with the not-found body. -/
theorem delete_event_c6_counterexample :
    deleteEvent [] "abc" = (500, Body.errorMsg "Failed to delete event", []) ∧
    deleteEvent [] "abc" ≠ (404, Body.errorMsg "Event not found", []) := by
  constructor
  · rfl
  · decide

/-- C6 (amended): for every well-formed 24-hex-character identifier, the
DELETE handler answers 404 with the not-found body and leaves the store
unchanged when no stored event carries the id, and removes exactly one
event and answers 200 with the confirmation message when one does;
malformed identifiers are answered 500 with the store unchanged. -/
theorem delete_event_c6 (store : List StoredEvent) (id : String) :
    (isValidObjectId id = true → (∀ e ∈ store, e.oid ≠ id) →
      deleteEvent store id = (404, Body.errorMsg "Event not found", store)) ∧
    (isValidObjectId id = true → (∃ e ∈ store, e.oid = id) →
      deleteEvent store id = (200, Body.message "Event deleted", removeFirst store id) ∧
      (removeFirst store id).length + 1 = store.length) ∧
    (isValidObjectId id = false →
      deleteEvent store id = (500, Body.errorMsg "Failed to delete event", store)) := by
  refine ⟨?_, ?_, ?_⟩
  · intro hv hnone
    have hany : store.any (fun e => e.oid == id) = false := by
      rw [← Bool.not_eq_true, List.any_eq_true]
      rintro ⟨e, he, heq⟩
      exact hnone e he (by simpa using heq)
    unfold deleteEvent
    simp [hv, hany]
  · intro hv hsome
    have hany : store.any (fun e => e.oid == id) = true := by
      rw [List.any_eq_true]
      obtain ⟨e, he, heq⟩ := hsome
      exact ⟨e, he, by simpa using heq⟩
    unfold deleteEvent
    simp [hv, hany]
    exact removeFirst_length store id hsome
  · intro hv
    unfold deleteEvent
    simp [hv]

theorem delete_event_c6_witness :
    deleteEvent [] "65a000000000000000000001" =
      (404, Body.errorMsg "Event not found", []) ∧
    deleteEvent
        [{ oid := "65a000000000000000000001", date := "2025-12-01",
           title := "Standup", description := "", createdAt := 42 }]
        "65a000000000000000000001" =
      (200, Body.message "Event deleted",
        removeFirst
          [{ oid := "65a000000000000000000001", date := "2025-12-01",
             title := "Standup", description := "", createdAt := 42 }]
          "65a000000000000000000001") ∧
    deleteEvent [] "abc" = (500, Body.errorMsg "Failed to delete event", []) :=
  ⟨(delete_event_c6 [] "65a000000000000000000001").1 (by decide) (by simp),
   ((delete_event_c6
      [{ oid := "65a000000000000000000001", date := "2025-12-01",
         title := "Standup", description := "", createdAt := 42 }]
      "65a000000000000000000001").2.1 (by decide)
      ⟨_, List.mem_singleton.mpr rfl, rfl⟩).1,
   (delete_event_c6 [] "abc").2.2 (by decide)⟩

/-- C7: the per-day event lookup returns exactly the events whose date
equals the requested date string, in input order (it is a sublist of the
input), returns the empty list on zero matches, and on the sample data
returns exactly the Holiday Party event for 2025-12-24. -/
theorem events_on_c7 :
    (∀ (evts : List Event) (d : String), (eventsOn evts d).Sublist evts) ∧
    (∀ (evts : List Event) (d : String) (e : Event),
      e ∈ eventsOn evts d ↔ e ∈ evts ∧ e.date = d) ∧
    (∀ (evts : List Event) (d : String),
      (∀ e ∈ evts, e.date ≠ d) → eventsOn evts d = []) ∧
    eventsOn staticEvents "2025-12-24" =
      [{ title := "Holiday Party", date := "2025-12-24", time := "18:00",
         duration := "4h" }] := by
  refine ⟨?_, ?_, ?_, by decide⟩
  · intro evts d
    exact List.filter_sublist evts
  · intro evts d e
    simp [eventsOn, List.mem_filter]
  · intro evts d h
    unfold eventsOn
    rw [List.filter_eq_nil_iff]
    intro e he
    simpa using h e he

theorem events_on_c7_witness : eventsOn staticEvents "1999-01-01" = [] :=
  events_on_c7.2.2.1 staticEvents "1999-01-01" (by decide)

/-- C8 counterexample: the GET /events handler receives the date query
parameter with the empty-string value; the empty string is falsy, so the
handler builds the unrestricted query and returns an event whose date is
"2025-11-26", not the empty string — the result is not restricted to exact
matches of the given parameter. -/
theorem list_events_c8_counterexample :
    listEvents
        [{ oid := "65a000000000000000000001", date := "2025-11-26",
           title := "Meeting", description := "", createdAt := 0 }] (some "") =
      (200, Body.events
        [{ oid := "65a000000000000000000001", date := "2025-11-26",
           title := "Meeting", description := "", createdAt := 0 }]) ∧
    ("2025-11-26" : String) ≠ "" := by
  constructor
  · rfl
  · decide

/-- C8 (amended): when a non-empty date query parameter is given the GET
/events handler answers 200 with exactly the events whose date matches it;
when the parameter is omitted (or empty, which the handler treats as
absent) it answers 200 with all events sorted ascending by date; an empty
store, or a date with no events, yields 200 with the empty array. -/
theorem list_events_c8 (store : List StoredEvent) (d : String) :
    (d ≠ "" → listEvents store (some d) =
      (200, Body.events (sortByDate (store.filter (fun e => e.date == d))))) ∧
    (∀ e : StoredEvent, e ∈ sortByDate (store.filter (fun e2 => e2.date == d)) ↔
      e ∈ store ∧ e.date = d) ∧
    listEvents store none = (200, Body.events (sortByDate store)) ∧
    (sortByDate store).Perm store ∧
    List.Sorted dateLE (sortByDate store) ∧
    (∀ dp : Option String, listEvents [] dp = (200, Body.events [])) ∧
    (d ≠ "" → (∀ e ∈ store, e.date ≠ d) →
      listEvents store (some d) = (200, Body.events [])) := by
  have hfil : ∀ h : d ≠ "", falsy (some d) = false := fun h => by simp [falsy, h]
  refine ⟨?_, ?_, rfl, List.perm_insertionSort dateLE store,
    List.sorted_insertionSort dateLE store, ?_, ?_⟩
  · intro h
    unfold listEvents
    simp [hfil h]
  · intro e
    simp [sortByDate, List.mem_filter]
  · intro dp
    unfold listEvents
    split_ifs <;> rfl
  · intro h hnone
    have : store.filter (fun e => e.date == d) = [] := by
      rw [List.filter_eq_nil_iff]
      intro e he
      simpa using hnone e he
    unfold listEvents
    simp [hfil h, this, sortByDate]

theorem list_events_c8_witness :
    listEvents
        [{ oid := "65a000000000000000000001", date := "2025-11-26",
           title := "Meeting", description := "", createdAt := 0 }]
        (some "2025-11-26") =
      (200, Body.events
        (sortByDate
          (List.filter (fun e => e.date == "2025-11-26")
            [{ oid := "65a000000000000000000001", date := "2025-11-26",
               title := "Meeting", description := "", createdAt := 0 }]))) ∧
    listEvents
        [{ oid := "65a000000000000000000001", date := "2025-11-26",
           title := "Meeting", description := "", createdAt := 0 }]
        (some "2025-12-31") =
      (200, Body.events []) :=
  ⟨(list_events_c8
      [{ oid := "65a000000000000000000001", date := "2025-11-26",
         title := "Meeting", description := "", createdAt := 0 }]
      "2025-11-26").1 (by decide),
   (list_events_c8
      [{ oid := "65a000000000000000000001", date := "2025-11-26",
         title := "Meeting", description := "", createdAt := 0 }]
      "2025-12-31").2.2.2.2.2.2 (by decide) (by decide)⟩

/-- Month-range preservation of the prev-month click handler. -/
theorem monthInRange_prevMonth (s : CalendarView) (h : monthInRange s) :
    monthInRange (prevMonth s) := by
  obtain ⟨h0, h1⟩ := h
  unfold monthInRange prevMonth
  dsimp only
  split_ifs with hc
  · exact ⟨show (0 : Int) ≤ 11 by norm_num, show (11 : Int) ≤ 11 by norm_num⟩
  · exact ⟨show (0 : Int) ≤ s.month - 1 by omega,
      show s.month - 1 ≤ 11 by omega⟩

/-- Month-range preservation of the next-month click handler. -/
theorem monthInRange_nextMonth (s : CalendarView) (h : monthInRange s) :
    monthInRange (nextMonth s) := by
  obtain ⟨h0, h1⟩ := h
  unfold monthInRange nextMonth
  dsimp only
  split_ifs with hc
  · exact ⟨show (0 : Int) ≤ 0 by norm_num, show (0 : Int) ≤ 11 by norm_num⟩
  · exact ⟨show (0 : Int) ≤ s.month + 1 by omega,
      show s.month + 1 ≤ 11 by omega⟩

/-- C9: from every view state with month in 0..11, every state reachable
by prev/next clicks keeps month in 0..11; PREV decrements the month,
wrapping month 0 to month 11 of the previous year, NEXT increments it,
wrapping month 11 to month 0 of the next year, and the year is untouched
when no wrap occurs (the state has no other fields). -/
theorem navigation_c9 (s : CalendarView) (h : monthInRange s) :
    monthInRange (prevMonth s) ∧ monthInRange (nextMonth s) ∧
    (∀ t : CalendarView, ReachableView s t → monthInRange t) ∧
    (s.month = 0 → prevMonth s = { year := s.year - 1, month := 11 }) ∧
    (s.month ≠ 0 → prevMonth s = { year := s.year, month := s.month - 1 }) ∧
    (s.month = 11 → nextMonth s = { year := s.year + 1, month := 0 }) ∧
    (s.month ≠ 11 → nextMonth s = { year := s.year, month := s.month + 1 }) := by
  obtain ⟨h0, h1⟩ := h
  refine ⟨monthInRange_prevMonth s ⟨h0, h1⟩, monthInRange_nextMonth s ⟨h0, h1⟩,
    ?_, ?_, ?_, ?_, ?_⟩
  · intro t ht
    induction ht with
    | refl => exact ⟨h0, h1⟩
    | prev _ ih => exact monthInRange_prevMonth _ ih
    | next _ ih => exact monthInRange_nextMonth _ ih
  · intro hm
    unfold prevMonth
    rw [if_pos (by omega)]
  · intro hm
    unfold prevMonth
    rw [if_neg (by omega)]
  · intro hm
    unfold nextMonth
    rw [if_pos (by omega)]
  · intro hm
    unfold nextMonth
    rw [if_neg (by omega)]

theorem navigation_c9_witness :
    prevMonth { year := 2025, month := 0 } = { year := 2024, month := 11 } ∧
    nextMonth { year := 2025, month := 11 } = { year := 2026, month := 0 } :=
  ⟨(navigation_c9 { year := 2025, month := 0 }
      ⟨by norm_num, by norm_num⟩).2.2.2.1 rfl,
   (navigation_c9 { year := 2025, month := 11 }
      ⟨by norm_num, by norm_num⟩).2.2.2.2.2.1 rfl⟩

/-- C10: a successful POST /events whose body has no description field
persists, and answers 201 with, a document whose description is the empty
string — every stored document carries a (possibly empty) description. -/
theorem create_event_description_c10 (store : List StoredEvent)
    (date title newId : String) (now : Nat) (hd : date ≠ "") (ht : title ≠ "") :
    createEvent store (some date) (some title) none newId now =
      (201,
        Body.event
          { oid := newId, date := date, title := title, description := "",
            createdAt := now },
        store ++
          [{ oid := newId, date := date, title := title, description := "",
             createdAt := now }]) := by
  have h1 : falsy (some date) = false := by simp [falsy, hd]
  have h2 : falsy (some title) = false := by simp [falsy, ht]
  unfold createEvent
  simp [h1, h2]

theorem create_event_description_c10_witness :
    createEvent [] (some "2025-12-01") (some "Standup") none
        "65a000000000000000000002" 7 =
      (201,
        Body.event
          { oid := "65a000000000000000000002", date := "2025-12-01",
            title := "Standup", description := "", createdAt := 7 },
        [{ oid := "65a000000000000000000002", date := "2025-12-01",
           title := "Standup", description := "", createdAt := 7 }]) :=
  create_event_description_c10 [] "2025-12-01" "Standup"
    "65a000000000000000000002" 7 (by decide) (by decide)
